import Mathlib

/-!
Shallow embedding of `src/main.py` (Paper2Gif): a tool that renders each git
revision's compiled PDF onto a fixed-size canvas and assembles the canvases
into a GIF.  Pure arithmetic (dimension clamping, page layout) is translated
directly; the I/O collaborators (git subprocesses, the build command,
`convert_from_path`, file saving) are modelled as per-revision outcome
oracles collected in an `Env`, and Python exceptions are modelled with
`Except`.
-/

/-- A rendered canvas image (PIL image), identified abstractly by a tag.
The pixel contents are irrelevant to the control flow of `main.py`. -/
structure Canvas where
  cid : String
deriving DecidableEq, Repr

/-- The Python exceptions that are relevant to the control flow of
`main.py`: `pdf2image.exceptions.PDFPageCountError` (the only one caught),
`OSError` from `subprocess.Popen` when the executable cannot be spawned,
`ValueError` from unpacking an empty list (`img, *imgs = frames`),
`ZeroDivisionError` from `i % 0` in `_layout_pages`, and `TypeError` from
`os.path.join(str, None)`. -/
inductive PyExn where
  | pdfPageCountError
  | osError (msg : String)
  | valueError
  | zeroDivisionError
  | typeError
  | otherError (msg : String)
deriving DecidableEq, Repr

/-! ## Renderer (`main.py` lines 10-58) -/

/-- State of a `Renderer` object after `Renderer.__init__` has run.
The dimensions are natural numbers: `__init__` clamps them to at least
100 (canvas) resp. 10 (page), so they are positive. -/
structure Renderer where
  imgW : Nat
  imgH : Nat
  pageW : Nat
  pageH : Nat
  firstPage : Option Int
  lastPage : Option Int
deriving DecidableEq, Repr

/-- `Renderer.__init__` (lines 19-22):
`self.img_size = (max(100, img_size[0]), max(100, img_size[1]))`,
`self.page_size = (max(10, page_size[0]), max(10, page_size[1]))`.
Inputs are Python ints (possibly negative from the CLI), so they are
modelled as `Int`; the clamped fields are at least 100 resp. 10, so
storing them as `Nat` via `Int.toNat` is lossless. -/
def Renderer.init (imgSize pageSize : Int × Int)
    (firstPage lastPage : Option Int) : Renderer :=
  Renderer.mk (max 100 imgSize.1).toNat (max 100 imgSize.2).toNat
    (max 10 pageSize.1).toNat (max 10 pageSize.2).toNat firstPage lastPage

/-- `pages_per_row = math.floor(imgw / pw)` (line 33).  For positive
Python ints, `math.floor` of float true division is integer floor
division (exact in the realistic range), i.e. `Nat` division. -/
def Renderer.pagesPerRow (r : Renderer) : Nat :=
  r.imgW / r.pageW

/-- `margin = math.floor((imgw - pages_per_row * pw) / 2)` (line 34).
The numerator is a Python int that could in principle be negative, so the
computation is done in `Int` with floor division (`Int.fdiv`). -/
def Renderer.margin (r : Renderer) : Int :=
  Int.fdiv ((r.imgW : Int) - (r.pagesPerRow : Int) * (r.pageW : Int)) 2

/-- The paste coordinates for page `i` (line 36):
`(margin + pw * math.floor(i % pages_per_row), ph * math.floor(i / pages_per_row))`. -/
def Renderer.placement (r : Renderer) (i : Nat) : Int × Int :=
  (r.margin + (r.pageW : Int) * ((i % r.pagesPerRow : Nat) : Int),
   (r.pageH : Int) * ((i / r.pagesPerRow : Nat) : Int))

/-- `Renderer._layout_pages` (lines 24-37), reduced to the placement
coordinates it pastes the pages at (the pasting itself is graphics I/O).
Python raises `ZeroDivisionError` when computing `imgw / pw` with
`pw = 0`, and when computing `i % pages_per_row` with `pages_per_row = 0`
at the first loop iteration (so only when there is at least one page). -/
def Renderer.layoutPlacements (r : Renderer) (numPages : Nat) :
    Except PyExn (List (Int × Int)) :=
  if r.pageW = 0 then Except.error PyExn.zeroDivisionError
  else if r.pagesPerRow = 0 ∧ 0 < numPages then Except.error PyExn.zeroDivisionError
  else Except.ok ((List.range numPages).map r.placement)

lemma Renderer.pagesPerRow_mul_le (r : Renderer) :
    r.pagesPerRow * r.pageW ≤ r.imgW :=
  Nat.div_mul_le_self r.imgW r.pageW

/-- The margin, computed with `Int` floor division in the source, equals
the plain `Nat` computation: the numerator is never negative. -/
lemma Renderer.margin_eq (r : Renderer) :
    r.margin = (((r.imgW - r.pagesPerRow * r.pageW) / 2 : Nat) : Int) := by
  have hle := r.pagesPerRow_mul_le
  unfold Renderer.margin
  rw [Int.ofNat_fdiv, ← Nat.cast_mul]
  generalize hk : r.pagesPerRow * r.pageW = k
  rw [hk] at hle
  congr 1
  omega

lemma Renderer.margin_nonneg (r : Renderer) : 0 ≤ r.margin := by
  rw [r.margin_eq]; positivity

/-! ## GitHelper (`main.py` lines 61-125) -/

/-- Result of one `subprocess.Popen(...)` + `communicate()` call:
either `Popen` itself raises (executable missing, `OSError`), or the
process runs and exits with some code and stderr output. -/
inductive SubprocResult where
  | spawnError (msg : String)
  | exited (code : Int) (stderr : String)
deriving DecidableEq, Repr

/-- Outcome of `self.renderer.render(self.outpath, ...)` for the artifact
present after checking out a given revision: it returns a canvas, raises
`PDFPageCountError` (unreadable/empty document), or raises some other
exception. -/
inductive RenderOutcome where
  | ok (img : Canvas)
  | pageCountError
  | otherError (msg : String)
deriving DecidableEq, Repr

/-- The external world of one run: the chronological revision list
returned by `RepositoryMining(...).traverse_commits()` and, for each
revision hash, the outcome of the `git checkout -f` subprocess, of the
compilation subprocess, and of rendering the artifact that the checkout
plus compilation leave behind.  The run is strictly sequential, so
keying the outcomes by the revision hash is faithful. -/
structure Env where
  hashes : List String
  checkout : String → SubprocResult
  compile : String → SubprocResult
  render : String → RenderOutcome

/-- `GitHelper.checkout` (lines 76-85): spawns `git checkout -f hash`,
reads stdout/stderr, prints stderr.  The exit status of the subprocess
is never inspected, so a checkout that runs and fails (nonzero exit)
returns normally; only a failure to spawn the process raises. -/
def checkoutStep (env : Env) (h : String) : Except PyExn Unit :=
  match env.checkout h with
  | SubprocResult.spawnError m => Except.error (PyExn.osError m)
  | SubprocResult.exited _ _ => Except.ok ()

/-- `GitHelper.compile_pdf` (lines 87-94): same pattern, exit status
likewise never inspected. -/
def compileStep (env : Env) (h : String) : Except PyExn Unit :=
  match env.compile h with
  | SubprocResult.spawnError m => Except.error (PyExn.osError m)
  | SubprocResult.exited _ _ => Except.ok ()

/-- `self.renderer.render(self.outpath, prefix=str(prefix))` as invoked
from the run loop (line 115): on success it saves and returns the file
`str(prefix) + "_digest.png"` together with the canvas. -/
def renderStep (env : Env) (h : String) (pfx : Nat) :
    Except PyExn (String × Canvas) :=
  match env.render h with
  | RenderOutcome.ok img => Except.ok (toString pfx ++ "_digest.png", img)
  | RenderOutcome.pageCountError => Except.error PyExn.pdfPageCountError
  | RenderOutcome.otherError m => Except.error (PyExn.otherError m)

/-- The `try`/`except` block of one loop iteration (lines 112-118):
checkout, compile, render; exactly `pdf2ex.PDFPageCountError` is caught
and turns into a skip (`none`), every other exception propagates. -/
def attemptRevision (env : Env) (h : String) (pfx : Nat) :
    Except PyExn (Option (String × Canvas)) :=
  match checkoutStep env h with
  | Except.error e => Except.error e
  | Except.ok _ =>
    match compileStep env h with
    | Except.error e => Except.error e
    | Except.ok _ =>
      match renderStep env h pfx with
      | Except.ok pc => Except.ok (some pc)
      | Except.error PyExn.pdfPageCountError => Except.ok none
      | Except.error e => Except.error e

/-- The `while not stop` loop of `GitHelper.run` (lines 109-121), with
the accumulators made explicit: `frames` is the list of appended canvases,
`saved` the saved digest file names, `pfx` the attempt counter
(`prefix += 1` runs on success and on skip alike).  Returns the final
frames, saved file names, and the queue left unprocessed.  The empty-queue
case is the initial `stop = len(hashes) == 0` check and the
`len(hashes) == 0` half of the stop condition; `endOpt = some h` is
`hash == end_hash` (false whenever `end_hash` is `None`). -/
def runLoop (env : Env) (endOpt : Option String) :
    List String → Nat → List Canvas → List String →
    Except PyExn (List Canvas × List String × List String)
  | [], _, frames, saved => Except.ok (frames, saved, [])
  | h :: rest, pfx, frames, saved =>
    match attemptRevision env h pfx with
    | Except.error e => Except.error e
    | Except.ok none =>
      if endOpt = some h ∨ rest = [] then Except.ok (frames, saved, rest)
      else runLoop env endOpt rest (pfx + 1) frames saved
    | Except.ok (some pc) =>
      if endOpt = some h ∨ rest = [] then
        Except.ok (frames ++ [pc.2], saved ++ [pc.1], rest)
      else runLoop env endOpt rest (pfx + 1) (frames ++ [pc.2]) (saved ++ [pc.1])

/-- Lines 106-108: `while len(hashes) > 0 and hashes[0] != start_hash:
hashes.pop(0)` — drop revisions from the front until the first one equal
to `start_hash` (drops everything when no revision matches). -/
def filterStart (startOpt : Option String) (hashes : List String) : List String :=
  match startOpt with
  | none => hashes
  | some s => hashes.dropWhile (fun h => h ≠ s)

/-- Observable result of a completed `GitHelper.run` call: the frame
sequence, the digest files saved (in order), the revisions left in the
queue when the loop stopped, and the GIF written (target path plus the
frame sequence handed to `save`), if any. -/
structure RunOutput where
  frames : List Canvas
  saved : List String
  remaining : List String
  gif : Option (String × List Canvas)
deriving DecidableEq, Repr

/-- `GitHelper.run` (lines 96-125).  After the loop, if `gif_path` was
given, `img, *imgs = frames` raises `ValueError` when `frames` is empty;
otherwise the GIF is saved with the full frame sequence in accumulation
order. -/
def GitHelper.run (env : Env) (startOpt endOpt gifOpt : Option String) :
    Except PyExn RunOutput :=
  match runLoop env endOpt (filterStart startOpt env.hashes) 1 [] [] with
  | Except.error e => Except.error e
  | Except.ok (frames, saved, remaining) =>
    match gifOpt with
    | none => Except.ok (RunOutput.mk frames saved remaining none)
    | some gp =>
      match frames with
      | [] => Except.error PyExn.valueError
      | img :: imgs => Except.ok (RunOutput.mk (img :: imgs) saved remaining (some (gp, img :: imgs)))

/-! ## Characterization of the run loop on environments without fatal errors -/

/-- An environment in which no step raises an exception other than the
recovered `PDFPageCountError`: every subprocess spawns (its exit status is
irrelevant to the code), and rendering either succeeds or raises exactly
`PDFPageCountError`. -/
def Env.benign (env : Env) : Prop :=
  ∀ h, (∃ c s, env.checkout h = SubprocResult.exited c s) ∧
       (∃ c s, env.compile h = SubprocResult.exited c s) ∧
       (env.render h = RenderOutcome.pageCountError ∨
        ∃ img, env.render h = RenderOutcome.ok img)

/-- The canvas a revision contributes, if its rendering succeeds. -/
def renderedImg (env : Env) (h : String) : Option Canvas :=
  match env.render h with
  | RenderOutcome.ok img => some img
  | _ => none

/-- The frame sequence produced by a list of processed revisions: one
canvas per successfully rendered revision, in order; skipped revisions
contribute nothing. -/
def framesOf (env : Env) (revs : List String) : List Canvas :=
  revs.filterMap (renderedImg env)

/-- The digest files saved for a list of processed revisions, starting at
attempt counter `pfx`: the counter advances for every processed revision
(skipped or not), and a file named by the current counter value is saved
exactly for the successfully rendered ones. -/
def savedOf (env : Env) : Nat → List String → List String
  | _, [] => []
  | pfx, h :: t =>
    match env.render h with
    | RenderOutcome.ok _ => (toString pfx ++ "_digest.png") :: savedOf env (pfx + 1) t
    | _ => savedOf env (pfx + 1) t

/-- The revisions the loop processes from a queue: the whole queue, cut
short right after the first revision equal to `endOpt` (if any). -/
def takeThrough (endOpt : Option String) : List String → List String
  | [] => []
  | h :: t => if endOpt = some h then [h] else h :: takeThrough endOpt t

lemma attempt_of_skip (env : Env) (hb : env.benign) (h : String) (pfx : Nat)
    (hr : env.render h = RenderOutcome.pageCountError) :
    attemptRevision env h pfx = Except.ok none := by
  obtain ⟨⟨c1, s1, hc⟩, ⟨c2, s2, hk⟩, _⟩ := hb h
  simp [attemptRevision, checkoutStep, compileStep, renderStep, hc, hk, hr]

lemma attempt_of_render (env : Env) (hb : env.benign) (h : String) (pfx : Nat)
    (img : Canvas) (hr : env.render h = RenderOutcome.ok img) :
    attemptRevision env h pfx =
      Except.ok (some (toString pfx ++ "_digest.png", img)) := by
  obtain ⟨⟨c1, s1, hc⟩, ⟨c2, s2, hk⟩, _⟩ := hb h
  simp [attemptRevision, checkoutStep, compileStep, renderStep, hc, hk, hr]

/-- On a benign environment the loop never fails and its result is fully
described by `takeThrough`, `framesOf` and `savedOf`. -/
lemma runLoop_benign (env : Env) (hb : env.benign) (endOpt : Option String) :
    ∀ (queue : List String) (pfx : Nat) (frames : List Canvas) (saved : List String),
      runLoop env endOpt queue pfx frames saved =
        Except.ok (frames ++ framesOf env (takeThrough endOpt queue),
                   saved ++ savedOf env pfx (takeThrough endOpt queue),
                   queue.drop (takeThrough endOpt queue).length) := by
  intro queue
  induction queue with
  | nil =>
    intro pfx frames saved
    simp [runLoop, takeThrough, framesOf, savedOf]
  | cons h rest ih =>
    intro pfx frames saved
    rcases (hb h).2.2 with hr | ⟨img, hr⟩
    · rw [runLoop, attempt_of_skip env hb h pfx hr]
      by_cases hstop : endOpt = some h ∨ rest = []
      · rcases hstop with hend | hrest
        · simp [takeThrough, hend, framesOf, renderedImg, savedOf, hr]
        · subst hrest
          simp [takeThrough, framesOf, renderedImg, savedOf, hr]
      · push_neg at hstop
        simp [hstop.1, hstop.2, ih, takeThrough, framesOf, renderedImg, savedOf, hr]
    · rw [runLoop, attempt_of_render env hb h pfx img hr]
      by_cases hstop : endOpt = some h ∨ rest = []
      · rcases hstop with hend | hrest
        · simp [takeThrough, hend, framesOf, renderedImg, savedOf, hr]
        · subst hrest
          simp [takeThrough, framesOf, renderedImg, savedOf, hr]
      · push_neg at hstop
        simp [hstop.1, hstop.2, ih, takeThrough, framesOf, renderedImg, savedOf, hr]

/-- The processed revisions of a run: the filtered queue, cut right after
the first revision equal to `endOpt`. -/
def processedList (env : Env) (startOpt endOpt : Option String) : List String :=
  takeThrough endOpt (filterStart startOpt env.hashes)

/-- A benign run with no GIF requested completes and returns exactly the
frames, files and leftover queue described by the characterization. -/
lemma run_benign (env : Env) (hb : env.benign) (startOpt endOpt : Option String) :
    GitHelper.run env startOpt endOpt none =
      Except.ok (RunOutput.mk
        (framesOf env (processedList env startOpt endOpt))
        (savedOf env 1 (processedList env startOpt endOpt))
        ((filterStart startOpt env.hashes).drop
          (processedList env startOpt endOpt).length)
        none) := by
  unfold GitHelper.run processedList
  rw [runLoop_benign env hb endOpt (filterStart startOpt env.hashes) 1 [] []]
  simp

lemma takeThrough_none (l : List String) : takeThrough none l = l := by
  induction l with
  | nil => rfl
  | cons h t ih => simp [takeThrough, ih]

lemma takeThrough_of_mem (e : String) :
    ∀ l : List String, e ∈ l →
      takeThrough (some e) l = l.takeWhile (fun h => h ≠ e) ++ [e] := by
  intro l
  induction l with
  | nil => intro hmem; simp at hmem
  | cons h t ih =>
    intro hmem
    by_cases hhe : h = e
    · subst hhe
      simp [takeThrough, List.takeWhile_cons]
    · have hte : e ∈ t := by
        rcases List.mem_cons.mp hmem with h1 | h1
        · exact absurd h1.symm hhe
        · exact h1
      simp [takeThrough, List.takeWhile_cons, Ne.symm hhe, hhe, ih hte]

lemma dropWhile_ne_head (s : String) :
    ∀ l : List String, s ∈ l → (l.dropWhile (fun h => h ≠ s)).head? = some s := by
  intro l
  induction l with
  | nil => intro hmem; simp at hmem
  | cons h t ih =>
    intro hmem
    by_cases hhs : h = s
    · subst hhs
      simp [List.dropWhile_cons]
    · have hts : s ∈ t := by
        rcases List.mem_cons.mp hmem with h1 | h1
        · exact absurd h1.symm hhs
        · exact h1
      simp only [List.dropWhile_cons]
      rw [if_pos (by simp [hhs])]
      exact ih hts

lemma dropWhile_ne_nil (s : String) :
    ∀ l : List String, s ∉ l → l.dropWhile (fun h => h ≠ s) = [] := by
  intro l
  induction l with
  | nil => intro _; rfl
  | cons h t ih =>
    intro hmem
    have hhs : h ≠ s := fun he => hmem (by simp [he])
    have hts : s ∉ t := fun ht => hmem (List.mem_cons_of_mem _ ht)
    simp only [List.dropWhile_cons]
    rw [if_pos (by simp [hhs])]
    exact ih hts

/-- If the revision at position `n` (0-based) of the processed list
renders successfully, the file named by attempt counter `pfx + n` is
among the saved digest files. -/
lemma savedOf_mem (env : Env) :
    ∀ (revs : List String) (pfx n : Nat) (hn : n < revs.length) (img : Canvas),
      env.render (revs.get ⟨n, hn⟩) = RenderOutcome.ok img →
      toString (pfx + n) ++ "_digest.png" ∈ savedOf env pfx revs := by
  intro revs
  induction revs with
  | nil => intro pfx n hn; simp at hn
  | cons h t ih =>
    intro pfx n hn img hr
    cases n with
    | zero =>
      have hr0 : env.render h = RenderOutcome.ok img := hr
      simp [savedOf, hr0]
    | succ m =>
      have hm : m < t.length := by simpa using hn
      have hmem := ih (pfx + 1) m hm img hr
      have harith : pfx + (m + 1) = pfx + 1 + m := by omega
      rw [harith]
      cases hrh : env.render h <;> simp [savedOf, hrh, hmem]

/-! ## Claim theorems: Renderer -/

/-- C2: for every renderer state whose `pagesPerRow` is at least 1 and
every number of pages, `_layout_pages` succeeds and places page `i`
(0-based) at `x = margin + pageW * (i mod pagesPerRow)`,
`y = pageH * (i div pagesPerRow)`; page 0 is placed at `(margin, 0)`,
where `margin = floor((imgW - pagesPerRow * pageW) / 2)`, and the margin
is nonnegative. -/
theorem c2_layout_formula (r : Renderer) (numPages : Nat)
    (hppr : 1 ≤ r.pagesPerRow) :
    r.layoutPlacements numPages =
      Except.ok ((List.range numPages).map (fun i =>
        (r.margin + (r.pageW : Int) * ((i % r.pagesPerRow : Nat) : Int),
         (r.pageH : Int) * ((i / r.pagesPerRow : Nat) : Int)))) ∧
    r.placement 0 = (r.margin, 0) ∧
    r.margin = (((r.imgW - r.pagesPerRow * r.pageW) / 2 : Nat) : Int) ∧
    0 ≤ r.margin := by
  have hpw : r.pageW ≠ 0 := by
    intro h0
    simp [Renderer.pagesPerRow, h0] at hppr
  refine ⟨?_, ?_, r.margin_eq, r.margin_nonneg⟩
  · unfold Renderer.layoutPlacements
    rw [if_neg hpw, if_neg (by intro hc; omega)]
    rfl
  · unfold Renderer.placement
    simp

theorem c2_layout_formula_witness :
    1 ≤ (Renderer.init (800, 600) (80, 100) none none).pagesPerRow ∧
    (Renderer.init (800, 600) (80, 100) none none).layoutPlacements 2 =
      Except.ok [((0 : Int), (0 : Int)), ((80 : Int), (0 : Int))] ∧
    0 ≤ (Renderer.init (800, 600) (80, 100) none none).margin := by
  have h := c2_layout_formula (Renderer.init (800, 600) (80, 100) none none) 2
    (by decide)
  refine ⟨by decide, ?_, h.2.2.2⟩
  rw [h.1]
  rfl

/-- C9: row-major wraparound law — for every page index `i`, the page one
row later has the same `x` coordinate, and a `y` coordinate exactly
`pageH` larger. -/
theorem c9_wraparound (r : Renderer) (i : Nat) (hppr : 1 ≤ r.pagesPerRow) :
    (r.placement i).1 = (r.placement (i + r.pagesPerRow)).1 ∧
    (r.placement i).2 = (r.placement (i + r.pagesPerRow)).2 - (r.pageH : Int) := by
  have hpos : 0 < r.pagesPerRow := hppr
  have hdiv : (i + r.pagesPerRow) / r.pagesPerRow = i / r.pagesPerRow + 1 :=
    Nat.add_div_right i hpos
  constructor
  · unfold Renderer.placement
    simp [Nat.add_mod_right]
  · unfold Renderer.placement
    simp [hdiv]
    ring

theorem c9_wraparound_witness :
    ((Renderer.init (800, 600) (80, 100) none none).placement 3).1 =
      ((Renderer.init (800, 600) (80, 100) none none).placement 13).1 ∧
    ((Renderer.init (800, 600) (80, 100) none none).placement 3).2 =
      ((Renderer.init (800, 600) (80, 100) none none).placement 13).2 -
        ((Renderer.init (800, 600) (80, 100) none none).pageH : Int) := by
  have h := c9_wraparound (Renderer.init (800, 600) (80, 100) none none) 3
    (by decide)
  exact h

/-- C8: constructing the renderer clamps canvas dimensions up to the hard
floor 100 and page dimensions up to the hard floor 10: the stored values
are never below the floor, a requested value below the floor yields
exactly the floor, and a value at or above the floor is kept unchanged. -/
theorem c8_dimension_clamp (iw ih pw2 ph2 : Int) (fp lp : Option Int) :
    (100 ≤ (Renderer.init (iw, ih) (pw2, ph2) fp lp).imgW ∧
     100 ≤ (Renderer.init (iw, ih) (pw2, ph2) fp lp).imgH ∧
     10 ≤ (Renderer.init (iw, ih) (pw2, ph2) fp lp).pageW ∧
     10 ≤ (Renderer.init (iw, ih) (pw2, ph2) fp lp).pageH) ∧
    ((iw < 100 → ((Renderer.init (iw, ih) (pw2, ph2) fp lp).imgW : Int) = 100) ∧
     (ih < 100 → ((Renderer.init (iw, ih) (pw2, ph2) fp lp).imgH : Int) = 100) ∧
     (pw2 < 10 → ((Renderer.init (iw, ih) (pw2, ph2) fp lp).pageW : Int) = 10) ∧
     (ph2 < 10 → ((Renderer.init (iw, ih) (pw2, ph2) fp lp).pageH : Int) = 10)) ∧
    ((100 ≤ iw → ((Renderer.init (iw, ih) (pw2, ph2) fp lp).imgW : Int) = iw) ∧
     (100 ≤ ih → ((Renderer.init (iw, ih) (pw2, ph2) fp lp).imgH : Int) = ih) ∧
     (10 ≤ pw2 → ((Renderer.init (iw, ih) (pw2, ph2) fp lp).pageW : Int) = pw2) ∧
     (10 ≤ ph2 → ((Renderer.init (iw, ih) (pw2, ph2) fp lp).pageH : Int) = ph2)) := by
  simp only [Renderer.init]
  omega

theorem c8_dimension_clamp_witness :
    ((Renderer.init (50, 600) (5, 700) none none).imgW : Int) = 100 ∧
    ((Renderer.init (50, 600) (5, 700) none none).imgH : Int) = 600 ∧
    ((Renderer.init (50, 600) (5, 700) none none).pageW : Int) = 10 ∧
    ((Renderer.init (50, 600) (5, 700) none none).pageH : Int) = 700 := by
  have h := c8_dimension_clamp 50 600 5 700 none none
  exact ⟨h.2.1.1 (by norm_num), h.2.2.2.1 (by norm_num),
    h.2.1.2.2.1 (by norm_num), h.2.2.2.2.2 (by norm_num)⟩

/-- C4: contrary to the claim, a layout misconfiguration with page width
exceeding canvas width is NOT rejected at configuration time: the
constructor accepts canvas 100x100 with page 200x10 (the clamps do not
touch it), producing `pagesPerRow = 0`, and the failure only surfaces
mid-run as a `ZeroDivisionError` inside `_layout_pages` when a document
with at least one page is rendered. -/
theorem c4_layout_misconfig_not_validated :
    Renderer.init (100, 100) (200, 10) none none =
      Renderer.mk 100 100 200 10 none none ∧
    (Renderer.init (100, 100) (200, 10) none none).pagesPerRow = 0 ∧
    (Renderer.init (100, 100) (200, 10) none none).layoutPlacements 1 =
      Except.error PyExn.zeroDivisionError := by
  refine ⟨rfl, rfl, ?_⟩
  rfl

/-! ## Claim theorems: run loop -/

/-- A subprocess oracle that always runs and exits with status 0. -/
def exitZero : String → SubprocResult := fun _ => SubprocResult.exited 0 ""

/-- A render oracle for the spec's end-to-end scenario: revision "b" has
an unreadable PDF, every other revision renders to a canvas tagged with
its hash. -/
def renderSkipB : String → RenderOutcome := fun h =>
  if h = "b" then RenderOutcome.pageCountError else RenderOutcome.ok (Canvas.mk h)

/-- Three chronological revisions a, b, c; b fails rasterization. -/
def envABC : Env := Env.mk ["a", "b", "c"] exitZero exitZero renderSkipB

lemma envABC_benign : envABC.benign := by
  intro h
  refine ⟨⟨0, "", rfl⟩, ⟨0, "", rfl⟩, ?_⟩
  by_cases hb : h = "b"
  · exact Or.inl (by simp [envABC, renderSkipB, hb])
  · exact Or.inr ⟨Canvas.mk h, by simp [envABC, renderSkipB, hb]⟩

/-- C1: on a run without fatal errors (every revision either renders or
raises the recovered `PDFPageCountError`) and no GIF requested, the run
completes; a revision that raises `PDFPageCountError` contributes no
frame (`renderedImg` is `none` for it) and processing carries on through
the rest of the processed list; and the attempt counter advances for
every processed revision, skipped or not, so the revision at 0-based
position `n` of the processed list saves `<1+n>_digest.png` when it
renders — the filename index is the attempt index, not the
accepted-frame index. -/
theorem c1_skip_policy (env : Env) (hb : env.benign)
    (startOpt endOpt : Option String) :
    GitHelper.run env startOpt endOpt none =
      Except.ok (RunOutput.mk
        (framesOf env (processedList env startOpt endOpt))
        (savedOf env 1 (processedList env startOpt endOpt))
        ((filterStart startOpt env.hashes).drop
          (processedList env startOpt endOpt).length)
        none) ∧
    (∀ h, env.render h = RenderOutcome.pageCountError → renderedImg env h = none) ∧
    (∀ n (hn : n < (processedList env startOpt endOpt).length) (img : Canvas),
       env.render ((processedList env startOpt endOpt).get ⟨n, hn⟩) =
         RenderOutcome.ok img →
       toString (1 + n) ++ "_digest.png" ∈
         savedOf env 1 (processedList env startOpt endOpt)) := by
  refine ⟨run_benign env hb startOpt endOpt, ?_, ?_⟩
  · intro h hr
    simp [renderedImg, hr]
  · intro n hn img hr
    exact savedOf_mem env (processedList env startOpt endOpt) 1 n hn img hr

/-- Witness for C1: the spec's end-to-end scenario.  Three revisions
a, b, c where b's PDF is unreadable: two frames (a then c), digest files
`1_digest.png` and `3_digest.png` (attempt 2 was consumed by the skip),
and the queue fully consumed. -/
theorem c1_skip_policy_witness :
    GitHelper.run envABC none none none =
      Except.ok (RunOutput.mk [Canvas.mk "a", Canvas.mk "c"]
        ["1_digest.png", "3_digest.png"] [] none) := by
  rw [(c1_skip_policy envABC envABC_benign none none).1]
  rfl

/-- C7: when the end revision occurs in the queue, the run halts
immediately after processing the first revision equal to it — the
processed list is exactly the prefix through that revision and the later
revisions are left in the queue untouched; and with no end revision the
loop halts exactly when the queue becomes empty, leaving no revision
unprocessed. -/
theorem c7_end_boundary (env : Env) (hb : env.benign) (e : String)
    (he : e ∈ env.hashes) :
    GitHelper.run env none (some e) none =
      Except.ok (RunOutput.mk
        (framesOf env (env.hashes.takeWhile (fun h => h ≠ e) ++ [e]))
        (savedOf env 1 (env.hashes.takeWhile (fun h => h ≠ e) ++ [e]))
        (env.hashes.drop ((env.hashes.takeWhile (fun h => h ≠ e)).length + 1))
        none) ∧
    GitHelper.run env none none none =
      Except.ok (RunOutput.mk (framesOf env env.hashes)
        (savedOf env 1 env.hashes) [] none) := by
  constructor
  · have h1 := run_benign env hb none (some e)
    have h2 : processedList env none (some e) =
        env.hashes.takeWhile (fun h => h ≠ e) ++ [e] := by
      unfold processedList filterStart
      exact takeThrough_of_mem e env.hashes he
    rw [h1, h2]
    simp [filterStart]
  · have h1 := run_benign env hb none none
    have h2 : processedList env none none = env.hashes := by
      unfold processedList filterStart
      exact takeThrough_none env.hashes
    rw [h1, h2]
    simp [filterStart]

/-- Witness for C7: ending at "b" in the a, b, c scenario processes only
a and b and leaves c in the queue. -/
theorem c7_end_boundary_witness :
    GitHelper.run envABC none (some "b") none =
      Except.ok (RunOutput.mk [Canvas.mk "a"] ["1_digest.png"] ["c"] none) := by
  rw [(c7_end_boundary envABC envABC_benign "b" (by decide)).1]
  rfl

/-- The run loop's result does not depend on the exit statuses or stderr
of checkouts that spawn successfully: `GitHelper.checkout` never inspects
them. -/
lemma runLoop_checkout_exit_irrel (env1 env2 : Env) (endOpt : Option String)
    (hcmp : env1.compile = env2.compile) (hrnd : env1.render = env2.render)
    (hex1 : ∀ h, ∃ c s, env1.checkout h = SubprocResult.exited c s)
    (hex2 : ∀ h, ∃ c s, env2.checkout h = SubprocResult.exited c s) :
    ∀ (queue : List String) (pfx : Nat) (frames : List Canvas) (saved : List String),
      runLoop env1 endOpt queue pfx frames saved =
        runLoop env2 endOpt queue pfx frames saved := by
  intro queue
  induction queue with
  | nil => intro pfx frames saved; rfl
  | cons h rest ih =>
    intro pfx frames saved
    have hatt : attemptRevision env1 h pfx = attemptRevision env2 h pfx := by
      obtain ⟨c1, s1, h1⟩ := hex1 h
      obtain ⟨c2, s2, h2⟩ := hex2 h
      simp [attemptRevision, checkoutStep, compileStep, renderStep, h1, h2, hcmp, hrnd]
    rw [runLoop, runLoop, hatt]
    cases hres : attemptRevision env2 h pfx with
    | error e => rfl
    | ok o =>
      cases o with
      | none =>
        by_cases hstop : endOpt = some h ∨ rest = []
        · simp [hstop]
        · simp [hstop, ih]
      | some pc =>
        by_cases hstop : endOpt = some h ∨ rest = []
        · simp [hstop]
        · simp [hstop, ih]

/-- C5 (amended): only a failure to spawn the `git checkout` subprocess
is fatal — if the checkout of the first queued revision raises at spawn
time, the run aborts with that `OSError` and no output (in particular no
animation) is produced.  By contrast the exit status of a checkout that
does run is never inspected: two environments differing only in the exit
statuses/stderr of their checkouts yield identical run results, so a
checkout that runs and fails (nonzero exit) does not abort the run. -/
theorem c5_checkout_failure :
    (∀ (env : Env) (startOpt endOpt gifOpt : Option String) (h : String)
       (rest : List String) (m : String),
       filterStart startOpt env.hashes = h :: rest →
       env.checkout h = SubprocResult.spawnError m →
       GitHelper.run env startOpt endOpt gifOpt = Except.error (PyExn.osError m)) ∧
    (∀ (env1 env2 : Env) (startOpt endOpt gifOpt : Option String),
       env1.hashes = env2.hashes → env1.compile = env2.compile →
       env1.render = env2.render →
       (∀ h, ∃ c s, env1.checkout h = SubprocResult.exited c s) →
       (∀ h, ∃ c s, env2.checkout h = SubprocResult.exited c s) →
       GitHelper.run env1 startOpt endOpt gifOpt =
         GitHelper.run env2 startOpt endOpt gifOpt) := by
  constructor
  · intro env startOpt endOpt gifOpt h rest m hq hc
    unfold GitHelper.run
    rw [hq, runLoop]
    have ha : attemptRevision env h 1 = Except.error (PyExn.osError m) := by
      simp [attemptRevision, checkoutStep, hc]
    rw [ha]
  · intro env1 env2 startOpt endOpt gifOpt hh hcmp hrnd hex1 hex2
    unfold GitHelper.run
    rw [hh, runLoop_checkout_exit_irrel env1 env2 endOpt hcmp hrnd hex1 hex2]

/-- A render oracle where every revision renders successfully. -/
def renderAll : String → RenderOutcome := fun h => RenderOutcome.ok (Canvas.mk h)

/-- One revision whose checkout runs but exits with status 1. -/
def envExitFail : Env :=
  Env.mk ["a"] (fun _ => SubprocResult.exited 1 "error") exitZero renderAll

/-- One revision whose checkout subprocess cannot be spawned. -/
def envSpawnFail : Env :=
  Env.mk ["a"] (fun _ => SubprocResult.spawnError "git missing") exitZero renderAll

/-- One revision, everything succeeds. -/
def envExitZeroA : Env := Env.mk ["a"] exitZero exitZero renderAll

/-- Counterexample to C5 as stated: the checkout of revision "a" fails
(git exits with status 1), yet the run does not abort — it completes,
produces a frame, and writes the animation from it. -/
theorem c5_checkout_failure_counterexample :
    envExitFail.checkout "a" = SubprocResult.exited 1 "error" ∧
    GitHelper.run envExitFail none none (some "out.gif") =
      Except.ok (RunOutput.mk [Canvas.mk "a"] ["1_digest.png"] []
        (some ("out.gif", [Canvas.mk "a"]))) := by
  exact ⟨rfl, rfl⟩

theorem c5_checkout_failure_witness :
    GitHelper.run envSpawnFail none none (some "out.gif") =
      Except.error (PyExn.osError "git missing") ∧
    GitHelper.run envExitFail none none none =
      GitHelper.run envExitZeroA none none none := by
  constructor
  · exact c5_checkout_failure.1 envSpawnFail none none (some "out.gif") "a" []
      "git missing" rfl rfl
  · exact c5_checkout_failure.2 envExitFail envExitZeroA none none none rfl rfl rfl
      (fun h => ⟨1, "error", rfl⟩) (fun h => ⟨0, "", rfl⟩)

/-- C6 (amended): the start filter drops revisions from the front until
the one matching `startRevision` is at the front, so when the start
revision is present the filtered queue begins exactly with it and is a
suffix of the history; when it is absent the queue becomes empty and the
run produces zero frames — a silent no-op when no animation path is
given, but with an animation path the empty frame sequence makes the
encode step raise `ValueError` rather than being a silent no-op. -/
theorem c6_start_filtering (env : Env) (s : String) (e : Option String) :
    (s ∈ env.hashes →
       filterStart (some s) env.hashes =
         env.hashes.dropWhile (fun h => h ≠ s) ∧
       (filterStart (some s) env.hashes).head? = some s ∧
       env.hashes.takeWhile (fun h => h ≠ s) ++ filterStart (some s) env.hashes =
         env.hashes) ∧
    (s ∉ env.hashes →
       filterStart (some s) env.hashes = [] ∧
       GitHelper.run env (some s) e none = Except.ok (RunOutput.mk [] [] [] none) ∧
       (∀ g, GitHelper.run env (some s) e (some g) =
         Except.error PyExn.valueError)) := by
  constructor
  · intro hmem
    refine ⟨rfl, dropWhile_ne_head s env.hashes hmem, ?_⟩
    exact List.takeWhile_append_dropWhile _ _
  · intro hmem
    have hnil : filterStart (some s) env.hashes = [] :=
      dropWhile_ne_nil s env.hashes hmem
    refine ⟨hnil, ?_, ?_⟩
    · unfold GitHelper.run
      rw [hnil]
      rfl
    · intro g
      unfold GitHelper.run
      rw [hnil]
      rfl

/-- Counterexample to C6 as stated: start revision "z" is absent from the
history, and because an animation path is provided the run is not a
silent no-op — it raises `ValueError` at the encode step. -/
theorem c6_start_filtering_counterexample :
    ("z" ∈ envExitZeroA.hashes → False) ∧
    GitHelper.run envExitZeroA (some "z") none (some "out.gif") =
      Except.error PyExn.valueError := by
  constructor
  · intro hmem
    simp [envExitZeroA] at hmem
  · rfl

theorem c6_start_filtering_witness :
    (filterStart (some "b") envABC.hashes).head? = some "b" ∧
    GitHelper.run envExitZeroA (some "z") none none =
      Except.ok (RunOutput.mk [] [] [] none) := by
  constructor
  · exact ((c6_start_filtering envABC "b" none).1 (by decide)).2.1
  · exact ((c6_start_filtering envExitZeroA "z" none).2 (by decide)).2.1

/-- A render oracle where every revision's PDF is unreadable. -/
def renderNone : String → RenderOutcome := fun _ => RenderOutcome.pageCountError

/-- One revision whose rasterization fails. -/
def envAllSkip : Env := Env.mk ["a"] exitZero exitZero renderNone

/-- C3: code bug — when an animation path is provided and every revision
was skipped, the frame sequence is empty at encode time and line 124
(`img, *imgs = frames`) raises `ValueError`: the boundary condition is
not handled, the run crashes.  The same run without an animation path
completes with zero frames, showing the crash comes precisely from the
empty-sequence encode step. -/
theorem c3_empty_encode_crash :
    GitHelper.run envAllSkip none none (some "out.gif") =
      Except.error PyExn.valueError ∧
    GitHelper.run envAllSkip none none none =
      Except.ok (RunOutput.mk [] [] [] none) := by
  exact ⟨rfl, rfl⟩

/-! ## main() and GitHelper.__init__ (`main.py` lines 62-68, 128-145) -/

/-- The argparse surface of `main()` (lines 129-141) after parsing: the
required string flags, the optional flags (argparse default `None`), and
the integer dimension flags (defaults 800, 600, 80, 100). -/
structure Args where
  repository : String
  command : String
  pdfpath : String
  subdirectory : Option String
  gifpath : Option String
  framewidth : Int
  frameheight : Int
  pagewidth : Int
  pageheight : Int
  starthash : Option String
  endhash : Option String

/-- Posix `os.path.join` on two strings. -/
def osPathJoinStr (a s : String) : String :=
  if s.startsWith "/" then s
  else if a = "" then s
  else if a.endsWith "/" then a ++ s
  else a ++ "/" ++ s

/-- `os.path.join(a, b)` where the second argument may be `None`: Python
raises `TypeError` (join() argument must be str, not NoneType) on
`None`. -/
def osPathJoin (a : String) (b : Option String) : Except PyExn String :=
  match b with
  | none => Except.error PyExn.typeError
  | some s => Except.ok (osPathJoinStr a s)

/-- State of a `GitHelper` object after `__init__` (lines 62-68); the
`renderer` field is omitted, the loop is modelled through `Env`. -/
structure GitHelper where
  srcRepository : String
  subdirectory : Option String
  outpath : String
  cwd : String
  compilationCommand : String
deriving DecidableEq, Repr

/-- `GitHelper.__init__` (lines 62-68): the field assignments run in
order and `self.cwd = os.path.join(src_repository, subdirectory)` raises
`TypeError` when `subdirectory` is `None`, so construction fails. -/
def GitHelper.init (srcRepository compilationCommand outpath : String)
    (subdirectory : Option String) : Except PyExn GitHelper :=
  match osPathJoin srcRepository subdirectory with
  | Except.error e => Except.error e
  | Except.ok cwd =>
    Except.ok (GitHelper.mk srcRepository subdirectory outpath cwd compilationCommand)

/-- `main()` (lines 128-145): construct the `Renderer`, construct the
`GitHelper` passing `subdirectory=args.subdirectory` (argparse default
`None`), then call `run`. -/
def mainModel (env : Env) (args : Args) : Except PyExn RunOutput :=
  let _r := Renderer.init (args.framewidth, args.frameheight)
    (args.pagewidth, args.pageheight) none none
  match GitHelper.init args.repository args.command args.pdfpath args.subdirectory with
  | Except.error e => Except.error e
  | Except.ok _ => GitHelper.run env args.starthash args.endhash args.gifpath

/-- C10: when the `--subdirectory` flag is omitted, `main` passes
`subdirectory=None` into `GitHelper`, whose constructor evaluates
`os.path.join(repository, None)` and raises `TypeError` — for every
environment, i.e. before any revision is processed; and the program only
reaches the run when the subdirectory is an actual string, despite the
flag being declared optional. -/
theorem c10_subdirectory_none (env : Env) (args : Args) :
    (args.subdirectory = none →
       mainModel env args = Except.error PyExn.typeError) ∧
    (∀ s, args.subdirectory = some s →
       mainModel env args =
         GitHelper.run env args.starthash args.endhash args.gifpath) := by
  constructor
  · intro hnone
    simp [mainModel, GitHelper.init, osPathJoin, hnone]
  · intro s hsome
    simp [mainModel, GitHelper.init, osPathJoin, hsome]

theorem c10_subdirectory_none_witness :
    mainModel envABC
      (Args.mk "repo" "make" "paper.pdf" none none 800 600 80 100 none none) =
      Except.error PyExn.typeError :=
  (c10_subdirectory_none envABC
    (Args.mk "repo" "make" "paper.pdf" none none 800 600 80 100 none none)).1 rfl
